import Mathlib

/-!
AndroidTextInputShadowNode: a shallow embedding of
`ReactCommon/fabric/components/textinput/androidtextinput/AndroidTextInputShadowNode.cpp`:
the attributed-string builder (`getAttributedString`), the placeholder
synthesizer (`getPlaceholderAttributedString`), the state reconciler
(`updateStateIfNeeded`), the measurer (`measure`) and the layout entry point
(`layout`), together with the two setters.

Methods that write to the node are embedded with explicit state passing: they
take the node and return how the call completed together with the node as it is
when the call ends.  Types and helpers that the source file uses but does not
declare are modelled from the specification and say so in their doc comment.
-/

namespace facebook.react

/-! ## Data model -/

/-- Modelled from the spec: the colour value type is not declared in the source
file; a colour is an optional packed integer, absent when the attribute is not
set. -/
abbrev SharedColor := Option Nat

/-- Modelled from the spec: the colour used for "background color cleared",
fully transparent. -/
def clearColor : SharedColor := some 0

/-- Modelled from the spec: opaque black, the default foreground. -/
def blackColor : SharedColor := some 4278190080

/-- Modelled from the spec: `TextAttributes` is "a mergeable style record with
a defined default value and an `apply(override)` operation that layers
non-default fields onto a base".  A field that is `none` is not set.  Numeric
fields are carried as rationals. -/
structure TextAttributes where
  foregroundColor : SharedColor := none
  backgroundColor : SharedColor := none
  opacity : Option Rat := none
  fontFamily : Option String := none
  fontSize : Option Rat := none
deriving DecidableEq

namespace TextAttributes

/-- Modelled from the spec: the "defined default value" of the style record. -/
def defaultTextAttributes : TextAttributes :=
  { foregroundColor := blackColor
    backgroundColor := clearColor
    fontSize := some 14 }

/-- Modelled from the spec: `apply(override)` layers the fields that the
override sets onto the base and keeps the base's value for the others. -/
def apply (base override : TextAttributes) : TextAttributes :=
  { foregroundColor := override.foregroundColor.orElse fun _ => base.foregroundColor
    backgroundColor := override.backgroundColor.orElse fun _ => base.backgroundColor
    opacity := override.opacity.orElse fun _ => base.opacity
    fontFamily := override.fontFamily.orElse fun _ => base.fontFamily
    fontSize := override.fontSize.orElse fun _ => base.fontSize }

end TextAttributes

/-- Modelled from the spec: paragraph attributes are "layout-relevant text
settings (e.g., wrapping, line limits)"; the source only copies them. -/
structure ParagraphAttributes where
  maximumNumberOfLines : Nat := 0
  adjustsFontSizeToFit : Bool := false
deriving DecidableEq

/-- Node tags identify a node across revisions of the tree. -/
abbrev Tag := Nat

/-- The component name the source file defines (line 24). -/
def AndroidTextInputComponentName : String := "AndroidTextInput"

/-- Modelled from the spec: `ShadowView` is "a lightweight immutable snapshot of
node identity usable as a non-owning back-reference inside Fragments". -/
structure ShadowView where
  componentName : String := ""
  tag : Tag := 0
deriving DecidableEq

/-- Modelled from the spec: a fragment is a text run with its resolved
attributes and the back-reference to the node it comes from.  Equality is
structural. -/
structure Fragment where
  string : String := ""
  textAttributes : TextAttributes := {}
  parentShadowView : ShadowView := {}
deriving DecidableEq

/-- Modelled from the spec: an attributed string is an ordered sequence of
fragments, compared fragment by fragment. -/
structure AttributedString where
  fragments : List Fragment := []
deriving DecidableEq

namespace AttributedString

/-- Modelled from the spec: "empty fragments are dropped at insertion"; any other
fragment is added at the end. -/
def appendFragment (s : AttributedString) (fragment : Fragment) : AttributedString :=
  if fragment.string = "" then s else { fragments := s.fragments ++ [fragment] }

/-- Modelled from the spec: "empty fragments are dropped at insertion"; any other
fragment is added at the front. -/
def prependFragment (s : AttributedString) (fragment : Fragment) : AttributedString :=
  if fragment.string = "" then s else { fragments := fragment :: s.fragments }

/-- Modelled from the spec: a string is empty when it holds no fragment. -/
def isEmpty (s : AttributedString) : Bool :=
  s.fragments.isEmpty

end AttributedString

/-- Modelled from the spec: the box handed to the text-layout capability, holding
either an attributed string by value or a platform pointer. -/
inductive AttributedStringBox where
  | value (s : AttributedString)
  | nativePointer (address : Nat)
deriving DecidableEq

/-- Modelled from the spec: a size as returned by the text-layout capability. -/
structure Size where
  width : Rat := 0
  height : Rat := 0
deriving DecidableEq

/-- Modelled from the spec: the constraints a size query is made under. -/
structure LayoutConstraints where
  minimumSize : Size := {}
  maximumSize : Size := {}
deriving DecidableEq

/-- Modelled from the spec: the context of a layout pass, handed on unchanged to
the base layout algorithm. -/
structure LayoutContext where
  pointScaleFactor : Rat := 1
deriving DecidableEq

/-- A shared reference to a text layout manager: `none` is the null pointer,
`some a` refers to the manager object at address `a`.  Equality is equality of
references. -/
abbrev SharedTextLayoutManager := Option Nat

/-- A raw pointer to the context container, `none` when null. -/
abbrev ContextContainerPtr := Option Nat

/-- The props this node reads (`getProps()`). -/
structure AndroidTextInputProps where
  text : String := ""
  placeholder : String := ""
  textAttributes : TextAttributes := {}
  paragraphAttributes : ParagraphAttributes := {}
deriving DecidableEq

/-- The state data, with its fields in the order `updateStateIfNeeded` passes
them to the constructor (lines 126-132). -/
structure AndroidTextInputState where
  mostRecentEventCount : Int := 0
  reactTreeAttributedString : AttributedString := {}
  attributedString : AttributedString := {}
  paragraphAttributes : ParagraphAttributes := {}
  defaultTextAttributes : TextAttributes := {}
  defaultParentShadowView : ShadowView := {}
  layoutManager : SharedTextLayoutManager := none
deriving DecidableEq

/-- The node: the fields the source file reads and writes (`contextContainer_`,
`textLayoutManager_`, the state data), its props, and, modelled from the spec,
its tag, its sealed flag and the references to its children. -/
structure AndroidTextInputShadowNode where
  tag : Tag := 0
  isSealed : Bool := false
  props : AndroidTextInputProps := {}
  children : List Tag := []
  state : AndroidTextInputState := {}
  contextContainer_ : ContextContainerPtr := none
  textLayoutManager_ : SharedTextLayoutManager := none
deriving DecidableEq

/-- Why a call did not return. -/
inductive Fatal where
  | sealedMutation
  | assertionFailed
deriving DecidableEq

/-- How a call of a method that writes to the node completed. -/
inductive Completion where
  | returned
  | aborted (why : Fatal)
deriving DecidableEq

/-- The collaborators the source file calls and does not define. -/
structure Collaborators where
  /-- The attributed string of the children,
  `BaseTextShadowNode::getAttributedString(baseAttributes, parentNode)`, which
  reads the parent through its descriptor and its children. -/
  childrenAttributedString : TextAttributes → ShadowView → List Tag → AttributedString
  /-- The method `TextLayoutManager::measure` of the manager object at a given
  address. -/
  textLayoutMeasure : Nat → AttributedStringBox → ParagraphAttributes → LayoutConstraints → Size
  /-- The base layout algorithm, `ConcreteViewShadowNode::layout`. -/
  baseLayout : LayoutContext → AndroidTextInputShadowNode →
    Completion × AndroidTextInputShadowNode

/-! ## Operations -/

/-- The descriptor of this node, `ShadowView(*this)`. -/
def AndroidTextInputShadowNode.shadowView (n : AndroidTextInputShadowNode) : ShadowView :=
  { componentName := AndroidTextInputComponentName, tag := n.tag }

/-- Modelled from the spec: `ensureUnsealed()`, the mutation guard, which "fails
fatally" when the node is sealed and otherwise lets the call go on. -/
def AndroidTextInputShadowNode.ensureUnsealed (n : AndroidTextInputShadowNode) :
    Completion :=
  if n.isSealed then .aborted .sealedMutation else .returned

/-- Modelled from the spec: `setStateData`, which replaces the state wholesale. -/
def AndroidTextInputShadowNode.setStateData (n : AndroidTextInputShadowNode)
    (data : AndroidTextInputState) : AndroidTextInputShadowNode :=
  { n with state := data }

/-- Embedding of `AndroidTextInputShadowNode::setContextContainer` (lines 26-30). -/
def AndroidTextInputShadowNode.setContextContainer (n : AndroidTextInputShadowNode)
    (contextContainer : ContextContainerPtr) : Completion × AndroidTextInputShadowNode :=
  match n.ensureUnsealed with
  | .aborted why => (.aborted why, n)
  | .returned => (.returned, { n with contextContainer_ := contextContainer })

/-- Embedding of `AndroidTextInputShadowNode::getPlaceholderAttributedString`
(lines 70-91). -/
def AndroidTextInputShadowNode.getPlaceholderAttributedString
    (n : AndroidTextInputShadowNode) (ensureMinimumLength : Bool) : AttributedString :=
  let textAttributedString : AttributedString := {}
  let fragment : Fragment := {}
  let fragment := { fragment with string := n.props.placeholder }
  let fragment :=
    if fragment.string = "" ∧ ensureMinimumLength = true then
      { fragment with string := " " }
    else fragment
  let textAttributes := TextAttributes.defaultTextAttributes
  let textAttributes := textAttributes.apply n.props.textAttributes
  let fragment := { fragment with textAttributes := textAttributes }
  let fragment := { fragment with parentShadowView := n.shadowView }
  textAttributedString.appendFragment fragment

/-- Embedding of `AndroidTextInputShadowNode::getAttributedString` (lines 32-64). -/
def AndroidTextInputShadowNode.getAttributedString (env : Collaborators)
    (n : AndroidTextInputShadowNode) : AttributedString :=
  let childTextAttributes := TextAttributes.defaultTextAttributes
  let childTextAttributes := childTextAttributes.apply n.props.textAttributes
  let attributedString :=
    env.childrenAttributedString childTextAttributes n.shadowView n.children
  if n.props.text ≠ "" then
    let textAttributes := TextAttributes.defaultTextAttributes
    let textAttributes := textAttributes.apply n.props.textAttributes
    let fragment : Fragment := {}
    let fragment := { fragment with string := n.props.text }
    let fragment := { fragment with textAttributes := textAttributes }
    let fragment :=
      { fragment with
        textAttributes := { fragment.textAttributes with backgroundColor := clearColor } }
    let fragment := { fragment with parentShadowView := n.shadowView }
    attributedString.prependFragment fragment
  else if !attributedString.isEmpty then
    attributedString
  else
    n.getPlaceholderAttributedString false

/-- Embedding of `AndroidTextInputShadowNode::setTextLayoutManager` (lines 93-97). -/
def AndroidTextInputShadowNode.setTextLayoutManager (n : AndroidTextInputShadowNode)
    (textLayoutManager : SharedTextLayoutManager) :
    Completion × AndroidTextInputShadowNode :=
  match n.ensureUnsealed with
  | .aborted why => (.aborted why, n)
  | .returned => (.returned, { n with textLayoutManager_ := textLayoutManager })

/-- The first assertion of `updateStateIfNeeded` (line 105): a layout manager is
set. -/
def AndroidTextInputShadowNode.layoutManagerIsSet (n : AndroidTextInputShadowNode) : Bool :=
  n.textLayoutManager_.isSome

/-- The second assertion of `updateStateIfNeeded` (lines 106-108): the state
records no layout manager, or the node's. -/
def AndroidTextInputShadowNode.stateRefersToLayoutManager
    (n : AndroidTextInputShadowNode) : Bool :=
  !n.state.layoutManager.isSome || n.state.layoutManager == n.textLayoutManager_

/-- Embedding of `AndroidTextInputShadowNode::updateStateIfNeeded` (lines 99-133).  `NDEBUG`
says whether the build compiles `assert` away; when it does not, a failed
assertion aborts the call. -/
def AndroidTextInputShadowNode.updateStateIfNeeded (NDEBUG : Bool) (env : Collaborators)
    (n : AndroidTextInputShadowNode) : Completion × AndroidTextInputShadowNode :=
  match n.ensureUnsealed with
  | .aborted why => (.aborted why, n)
  | .returned =>
    let reactTreeAttributedString := n.getAttributedString env
    let state := n.state
    if !NDEBUG && !n.layoutManagerIsSet then
      (.aborted .assertionFailed, n)
    else if !NDEBUG && !n.stateRefersToLayoutManager then
      (.aborted .assertionFailed, n)
    else if state.reactTreeAttributedString == reactTreeAttributedString &&
        state.layoutManager == n.textLayoutManager_ then
      (.returned, n)
    else
      let defaultTextAttributes := TextAttributes.defaultTextAttributes
      let defaultTextAttributes := defaultTextAttributes.apply n.props.textAttributes
      (.returned,
        n.setStateData
          { mostRecentEventCount := state.mostRecentEventCount
            reactTreeAttributedString := reactTreeAttributedString
            attributedString := reactTreeAttributedString
            paragraphAttributes := n.props.paragraphAttributes
            defaultTextAttributes := defaultTextAttributes
            defaultParentShadowView := n.shadowView
            layoutManager := n.textLayoutManager_ })

/-- Embedding of `AndroidTextInputShadowNode::measure` (lines 137-155).  The result is `none`
when the call dereferences a null `textLayoutManager_`. -/
def AndroidTextInputShadowNode.measure (env : Collaborators)
    (n : AndroidTextInputShadowNode) (layoutConstraints : LayoutConstraints) :
    Option Size :=
  let state := n.state
  let attributedString := state.attributedString
  let attributedString :=
    if attributedString.isEmpty then n.getPlaceholderAttributedString true
    else attributedString
  if attributedString.isEmpty then
    some { width := 0, height := 0 }
  else
    match n.textLayoutManager_ with
    | none => none
    | some manager =>
      some (env.textLayoutMeasure manager (AttributedStringBox.value attributedString)
        n.props.paragraphAttributes layoutConstraints)

/-- Embedding of `AndroidTextInputShadowNode::layout` (lines 157-160). -/
def AndroidTextInputShadowNode.layout (NDEBUG : Bool) (env : Collaborators)
    (n : AndroidTextInputShadowNode) (layoutContext : LayoutContext) :
    Completion × AndroidTextInputShadowNode :=
  match n.updateStateIfNeeded NDEBUG env with
  | (.aborted why, n1) => (.aborted why, n1)
  | (.returned, n1) => env.baseLayout layoutContext n1

/-! ## Specification-side definitions -/

/-- The asserted preconditions of `updateStateIfNeeded` (lines 105-108): either
the build compiles assertions away, or a layout manager is set and the state
records none or the same one. -/
def AndroidTextInputShadowNode.assertionsPass (NDEBUG : Bool)
    (n : AndroidTextInputShadowNode) : Prop :=
  NDEBUG = true ∨
    (n.textLayoutManager_ ≠ none ∧
      (n.state.layoutManager = none ∨ n.state.layoutManager = n.textLayoutManager_))

/-- The attributed string the children-text collaborator returns for this node. -/
def AndroidTextInputShadowNode.childrenString (env : Collaborators)
    (n : AndroidTextInputShadowNode) : AttributedString :=
  env.childrenAttributedString
    (TextAttributes.defaultTextAttributes.apply n.props.textAttributes)
    n.shadowView n.children

/-! ## Sample inputs -/

/-- A collaborator set to evaluate the definitions on: every child contributes
one fragment, a measured size counts fragments, the base layout does nothing. -/
def sampleCollaborators : Collaborators :=
  { childrenAttributedString := fun attributes parent children =>
      { fragments := children.map fun _ =>
          { string := "child", textAttributes := attributes, parentShadowView := parent } }
    textLayoutMeasure := fun _ box _ _ =>
      match box with
      | .value s => { width := s.fragments.length, height := 1 }
      | .nativePointer _ => {}
    baseLayout := fun _ n => (.returned, n) }

/-- A freshly constructed node with a text value, one child and a layout manager
set; its state is still the state as constructed. -/
def sampleNode : AndroidTextInputShadowNode :=
  { tag := 7
    props := { text := "hello", placeholder := "type here",
               textAttributes := { backgroundColor := some 255 } }
    children := [8]
    textLayoutManager_ := some 1 }

/-- An entirely empty widget: no text value, no placeholder, no children; a
layout manager is set and the state is the state as constructed. -/
def emptyNode : AndroidTextInputShadowNode :=
  { tag := 3, textLayoutManager_ := some 1 }

/-- The empty widget after a first commit and after the host has put typed text
into the rendered string of its state: the tree string is still empty, the
rendered string is not. -/
def editedEmptyNode : AndroidTextInputShadowNode :=
  { emptyNode with
    state :=
      { mostRecentEventCount := 4
        attributedString := { fragments := [{ string := "typed" }] }
        defaultTextAttributes := TextAttributes.defaultTextAttributes
        defaultParentShadowView := emptyNode.shadowView
        layoutManager := some 1 } }

/-- The sample node, sealed. -/
def sealedNode : AndroidTextInputShadowNode :=
  { sampleNode with isSealed := true }

/-- The sample node without its text value: its child still yields a fragment. -/
def childOnlyNode : AndroidTextInputShadowNode :=
  { sampleNode with props := { sampleNode.props with text := "" } }

/-- The sample node without its text value and without its child: only the
placeholder is left. -/
def placeholderOnlyNode : AndroidTextInputShadowNode :=
  { childOnlyNode with children := [] }

/-- The sample node with a state that records another layout manager than the
node's. -/
def mismatchedNode : AndroidTextInputShadowNode :=
  { sampleNode with state := { layoutManager := some 2 } }

namespace AndroidTextInputShadowNode

/-! ## Auxiliary facts -/

theorem updateStateIfNeeded_of_sealed (NDEBUG : Bool) (env : Collaborators)
    (n : AndroidTextInputShadowNode) (h : n.isSealed = true) :
    n.updateStateIfNeeded NDEBUG env = (.aborted .sealedMutation, n) := by
  simp [updateStateIfNeeded, ensureUnsealed, h]

theorem updateStateIfNeeded_of_same (NDEBUG : Bool) (env : Collaborators)
    (n : AndroidTextInputShadowNode) (hunsealed : n.isSealed = false)
    (hassert : n.assertionsPass NDEBUG)
    (hstring : n.state.reactTreeAttributedString = n.getAttributedString env)
    (hmanager : n.state.layoutManager = n.textLayoutManager_) :
    n.updateStateIfNeeded NDEBUG env = (.returned, n) := by
  rcases hassert with h | ⟨h1, h2⟩
  · simp [updateStateIfNeeded, ensureUnsealed, hunsealed, h, hstring, hmanager]
  · have h3 : n.textLayoutManager_.isSome = true := by
      cases h : n.textLayoutManager_ with
      | none => exact absurd h h1
      | some a => rfl
    simp [updateStateIfNeeded, ensureUnsealed, hunsealed, layoutManagerIsSet,
      stateRefersToLayoutManager, h3, hstring, hmanager]

theorem updateStateIfNeeded_of_changed (NDEBUG : Bool) (env : Collaborators)
    (n : AndroidTextInputShadowNode) (hunsealed : n.isSealed = false)
    (hassert : n.assertionsPass NDEBUG)
    (hchanged : n.state.reactTreeAttributedString ≠ n.getAttributedString env ∨
      n.state.layoutManager ≠ n.textLayoutManager_) :
    n.updateStateIfNeeded NDEBUG env =
      (.returned,
        { n with
          state :=
            { mostRecentEventCount := n.state.mostRecentEventCount
              reactTreeAttributedString := n.getAttributedString env
              attributedString := n.getAttributedString env
              paragraphAttributes := n.props.paragraphAttributes
              defaultTextAttributes :=
                TextAttributes.defaultTextAttributes.apply n.props.textAttributes
              defaultParentShadowView := n.shadowView
              layoutManager := n.textLayoutManager_ } }) := by
  have hcond : ¬ (n.state.reactTreeAttributedString = n.getAttributedString env ∧
      n.state.layoutManager = n.textLayoutManager_) := by
    rintro ⟨h1, h2⟩
    rcases hchanged with h | h
    · exact h h1
    · exact h h2
  rcases hassert with h | ⟨h1, h2⟩
  · simp [updateStateIfNeeded, ensureUnsealed, hunsealed, h, hcond, setStateData]
  · have h3 : n.textLayoutManager_.isSome = true := by
      cases h : n.textLayoutManager_ with
      | none => exact absurd h h1
      | some a => rfl
    have h4 : n.stateRefersToLayoutManager = true := by
      rcases h2 with h | h <;> simp [stateRefersToLayoutManager, h]
    simp [updateStateIfNeeded, ensureUnsealed, hunsealed, layoutManagerIsSet, h3, h4,
      hcond, setStateData]

theorem updateStateIfNeeded_returns_tree_string (NDEBUG : Bool) (env : Collaborators)
    (n : AndroidTextInputShadowNode) (hunsealed : n.isSealed = false)
    (hassert : n.assertionsPass NDEBUG) :
    (n.updateStateIfNeeded NDEBUG env).1 = .returned ∧
    (n.updateStateIfNeeded NDEBUG env).2.state.reactTreeAttributedString =
      n.getAttributedString env := by
  by_cases hsame : n.state.reactTreeAttributedString = n.getAttributedString env ∧
      n.state.layoutManager = n.textLayoutManager_
  · rw [updateStateIfNeeded_of_same NDEBUG env n hunsealed hassert hsame.1 hsame.2]
    exact ⟨rfl, hsame.1⟩
  · have hchanged : n.state.reactTreeAttributedString ≠ n.getAttributedString env ∨
        n.state.layoutManager ≠ n.textLayoutManager_ := by
      by_cases hs : n.state.reactTreeAttributedString = n.getAttributedString env
      · exact Or.inr fun hm => hsame ⟨hs, hm⟩
      · exact Or.inl hs
    rw [updateStateIfNeeded_of_changed NDEBUG env n hunsealed hassert hchanged]
    exact ⟨rfl, rfl⟩

/-! ## The reconciler -/

/-- C1: idempotence of the reconciler.  On an unsealed node with a layout manager
set (and, where assertions are compiled in, the asserted consistency of the
state), `updateStateIfNeeded` returns; called again on the node it leaves, with
the same props, children and layout manager, it returns on the early path and
leaves exactly that node, state included; the event counter is the one the node
started with. -/
theorem updateStateIfNeeded_idempotent (NDEBUG : Bool) (env : Collaborators)
    (n : AndroidTextInputShadowNode) (hunsealed : n.isSealed = false)
    (hset : n.textLayoutManager_ ≠ none) (hassert : n.assertionsPass NDEBUG) :
    (n.updateStateIfNeeded NDEBUG env).1 = .returned ∧
    (n.updateStateIfNeeded NDEBUG env).2.updateStateIfNeeded NDEBUG env =
      (.returned, (n.updateStateIfNeeded NDEBUG env).2) ∧
    ((n.updateStateIfNeeded NDEBUG env).2.updateStateIfNeeded NDEBUG env).2.state =
      (n.updateStateIfNeeded NDEBUG env).2.state ∧
    ((n.updateStateIfNeeded NDEBUG env).2.updateStateIfNeeded
      NDEBUG env).2.state.mostRecentEventCount = n.state.mostRecentEventCount := by
  by_cases hsame : n.state.reactTreeAttributedString = n.getAttributedString env ∧
      n.state.layoutManager = n.textLayoutManager_
  · have h1 := updateStateIfNeeded_of_same NDEBUG env n hunsealed hassert hsame.1 hsame.2
    simp [h1]
  · have hchanged : n.state.reactTreeAttributedString ≠ n.getAttributedString env ∨
        n.state.layoutManager ≠ n.textLayoutManager_ := by
      by_cases hs : n.state.reactTreeAttributedString = n.getAttributedString env
      · exact Or.inr fun hm => hsame ⟨hs, hm⟩
      · exact Or.inl hs
    have h1 := updateStateIfNeeded_of_changed NDEBUG env n hunsealed hassert hchanged
    have h2 := updateStateIfNeeded_of_same NDEBUG env (n.updateStateIfNeeded NDEBUG env).2
      (by rw [h1]; exact hunsealed)
      (by rw [h1]; exact Or.inr ⟨hset, Or.inr rfl⟩)
      (by rw [h1]; rfl)
      (by rw [h1])
    refine ⟨by rw [h1], h2, by rw [h2], ?_⟩
    rw [h2, h1]

/-- C1, evaluated on the sample node, whose first reconciliation commits. -/
theorem updateStateIfNeeded_idempotent_witness :
    sampleNode.isSealed = false ∧ sampleNode.textLayoutManager_ ≠ none ∧
    sampleNode.assertionsPass false ∧
    (sampleNode.updateStateIfNeeded false sampleCollaborators).2.state ≠ sampleNode.state ∧
    (sampleNode.updateStateIfNeeded false sampleCollaborators).2.updateStateIfNeeded
        false sampleCollaborators =
      (.returned, (sampleNode.updateStateIfNeeded false sampleCollaborators).2) :=
  ⟨rfl, by decide, Or.inr ⟨by decide, Or.inl rfl⟩, by decide,
    (updateStateIfNeeded_idempotent false sampleCollaborators sampleNode rfl (by decide)
      (Or.inr ⟨by decide, Or.inl rfl⟩)).2.1⟩

/-- C2: value precedes children.  When the text value is non-empty and `C` is the
attributed string the children yield, `getAttributedString` returns the fragment
built from the text (default attributes with the node's own applied, background
colour then cleared, descriptor of this node) followed by the fragments of `C`
in their order, whatever the node's own background colour and whether or not
`C` is empty. -/
theorem getAttributedString_value_precedes_children (env : Collaborators)
    (n : AndroidTextInputShadowNode) (C : AttributedString)
    (htext : n.props.text ≠ "")
    (hC : env.childrenAttributedString
      (TextAttributes.defaultTextAttributes.apply n.props.textAttributes)
      n.shadowView n.children = C) :
    n.getAttributedString env =
      { fragments :=
          { string := n.props.text
            textAttributes :=
              { TextAttributes.defaultTextAttributes.apply n.props.textAttributes with
                backgroundColor := clearColor }
            parentShadowView := n.shadowView } :: C.fragments } := by
  subst hC
  simp [getAttributedString, AttributedString.prependFragment, htext]

/-- C2, evaluated on the sample node, whose own background colour is set and whose
child yields one fragment. -/
theorem getAttributedString_value_precedes_children_witness :
    sampleNode.props.text ≠ "" ∧
    sampleNode.props.textAttributes.backgroundColor = some 255 ∧
    sampleNode.getAttributedString sampleCollaborators =
      { fragments :=
          [ { string := "hello"
              textAttributes :=
                { foregroundColor := blackColor, backgroundColor := clearColor,
                  fontSize := some 14 }
              parentShadowView := { componentName := "AndroidTextInput", tag := 7 } },
            { string := "child"
              textAttributes :=
                { foregroundColor := blackColor, backgroundColor := some 255,
                  fontSize := some 14 }
              parentShadowView := { componentName := "AndroidTextInput", tag := 7 } } ] } :=
  ⟨by decide, rfl,
    (getAttributedString_value_precedes_children sampleCollaborators sampleNode _
      (by decide) rfl).trans (by decide)⟩

/-- C3: contents of a commit.  On an unsealed node whose computed attributed
string differs from the state's tree string, or whose layout manager differs
from the one the state records, `updateStateIfNeeded` returns and the new state
carries the prior event counter, the computed string as both tree and rendered
string, the props' paragraph attributes, the default attributes with the node's
own applied, the descriptor of the node and the node's layout manager. -/
theorem updateStateIfNeeded_commit_contents (NDEBUG : Bool) (env : Collaborators)
    (n : AndroidTextInputShadowNode) (hunsealed : n.isSealed = false)
    (hassert : n.assertionsPass NDEBUG)
    (hchanged : n.state.reactTreeAttributedString ≠ n.getAttributedString env ∨
      n.state.layoutManager ≠ n.textLayoutManager_) :
    (n.updateStateIfNeeded NDEBUG env).1 = .returned ∧
    (n.updateStateIfNeeded NDEBUG env).2.state.mostRecentEventCount =
      n.state.mostRecentEventCount ∧
    (n.updateStateIfNeeded NDEBUG env).2.state.reactTreeAttributedString =
      n.getAttributedString env ∧
    (n.updateStateIfNeeded NDEBUG env).2.state.attributedString =
      n.getAttributedString env ∧
    (n.updateStateIfNeeded NDEBUG env).2.state.paragraphAttributes =
      n.props.paragraphAttributes ∧
    (n.updateStateIfNeeded NDEBUG env).2.state.defaultTextAttributes =
      TextAttributes.defaultTextAttributes.apply n.props.textAttributes ∧
    (n.updateStateIfNeeded NDEBUG env).2.state.defaultParentShadowView = n.shadowView ∧
    (n.updateStateIfNeeded NDEBUG env).2.state.layoutManager = n.textLayoutManager_ := by
  rw [updateStateIfNeeded_of_changed NDEBUG env n hunsealed hassert hchanged]
  exact ⟨rfl, rfl, rfl, rfl, rfl, rfl, rfl, rfl⟩

/-- C3, evaluated on the sample node: its state as constructed records no layout
manager and an empty tree string, so the call commits. -/
theorem updateStateIfNeeded_commit_contents_witness :
    sampleNode.isSealed = false ∧ sampleNode.assertionsPass false ∧
    sampleNode.state.layoutManager ≠ sampleNode.textLayoutManager_ ∧
    (sampleNode.updateStateIfNeeded false sampleCollaborators).2.state.attributedString =
      sampleNode.getAttributedString sampleCollaborators ∧
    (sampleNode.updateStateIfNeeded false sampleCollaborators).2.state.layoutManager =
      some 1 :=
  ⟨rfl, Or.inr ⟨by decide, Or.inl rfl⟩, by decide,
    (updateStateIfNeeded_commit_contents false sampleCollaborators sampleNode rfl
      (Or.inr ⟨by decide, Or.inl rfl⟩) (Or.inr (by decide))).2.2.2.1,
    by decide⟩

/-- C4: no commit when nothing changed.  On an unsealed node whose state's tree
string equals the computed attributed string and whose state records the node's
layout manager, `updateStateIfNeeded` leaves the node exactly as it was: every
field of the state, the rendered string included even when it differs from the
tree string, and every other field of the node; with the asserted preconditions
met the call returns. -/
theorem updateStateIfNeeded_no_commit (NDEBUG : Bool) (env : Collaborators)
    (n : AndroidTextInputShadowNode) (hunsealed : n.isSealed = false)
    (hstring : n.state.reactTreeAttributedString = n.getAttributedString env)
    (hmanager : n.state.layoutManager = n.textLayoutManager_) :
    (n.updateStateIfNeeded NDEBUG env).2 = n ∧
    (n.assertionsPass NDEBUG → n.updateStateIfNeeded NDEBUG env = (.returned, n)) := by
  refine ⟨?_, fun hassert =>
    updateStateIfNeeded_of_same NDEBUG env n hunsealed hassert hstring hmanager⟩
  simp only [updateStateIfNeeded, ensureUnsealed, hunsealed]
  split_ifs <;> simp_all

/-- C4, evaluated on the edited empty widget, whose rendered string differs from
its tree string. -/
theorem updateStateIfNeeded_no_commit_witness :
    editedEmptyNode.isSealed = false ∧
    editedEmptyNode.state.attributedString ≠
      editedEmptyNode.state.reactTreeAttributedString ∧
    (editedEmptyNode.updateStateIfNeeded false sampleCollaborators).2 = editedEmptyNode :=
  ⟨rfl, by decide,
    (updateStateIfNeeded_no_commit false sampleCollaborators editedEmptyNode rfl
      (by decide) rfl).1⟩

/-- C5: round trip through the state.  On an unsealed node with a layout manager
set, `updateStateIfNeeded` returns and the tree string of the state it leaves,
in particular of the state it commits, is equal fragment by fragment to what
`getAttributedString` returns for the same props and children, before and after
the call. -/
theorem updateStateIfNeeded_round_trip (NDEBUG : Bool) (env : Collaborators)
    (n : AndroidTextInputShadowNode) (hunsealed : n.isSealed = false)
    (hset : n.textLayoutManager_ ≠ none) (hassert : n.assertionsPass NDEBUG) :
    (n.updateStateIfNeeded NDEBUG env).1 = .returned ∧
    (n.updateStateIfNeeded NDEBUG env).2.state.reactTreeAttributedString.fragments =
      (n.getAttributedString env).fragments ∧
    (n.updateStateIfNeeded NDEBUG env).2.state.reactTreeAttributedString =
      (n.updateStateIfNeeded NDEBUG env).2.getAttributedString env := by
  have _ := hset
  by_cases hsame : n.state.reactTreeAttributedString = n.getAttributedString env ∧
      n.state.layoutManager = n.textLayoutManager_
  · rw [updateStateIfNeeded_of_same NDEBUG env n hunsealed hassert hsame.1 hsame.2]
    exact ⟨rfl, by rw [hsame.1], hsame.1⟩
  · have hchanged : n.state.reactTreeAttributedString ≠ n.getAttributedString env ∨
        n.state.layoutManager ≠ n.textLayoutManager_ := by
      by_cases hs : n.state.reactTreeAttributedString = n.getAttributedString env
      · exact Or.inr fun hm => hsame ⟨hs, hm⟩
      · exact Or.inl hs
    rw [updateStateIfNeeded_of_changed NDEBUG env n hunsealed hassert hchanged]
    exact ⟨rfl, rfl, rfl⟩

/-- C5, evaluated on the sample node: the committed tree string holds the value
fragment and the child's fragment. -/
theorem updateStateIfNeeded_round_trip_witness :
    sampleNode.isSealed = false ∧ sampleNode.textLayoutManager_ ≠ none ∧
    sampleNode.assertionsPass true ∧
    ((sampleNode.updateStateIfNeeded true
      sampleCollaborators).2.state.reactTreeAttributedString.fragments.map
        fun f => f.string) = ["hello", "child"] ∧
    (sampleNode.updateStateIfNeeded true
      sampleCollaborators).2.state.reactTreeAttributedString.fragments =
        (sampleNode.getAttributedString sampleCollaborators).fragments :=
  ⟨rfl, by decide, Or.inl rfl, by decide,
    (updateStateIfNeeded_round_trip true sampleCollaborators sampleNode rfl (by decide)
      (Or.inl rfl)).2.1⟩

/-- C6, as stated, fails: the edited empty widget has no text, no placeholder and
children that yield the empty string, `updateStateIfNeeded` returns, and the
rendered string of its state is not the empty attributed string afterwards. -/
theorem early_return_keeps_rendered_string_counterexample :
    editedEmptyNode.props.text = "" ∧ editedEmptyNode.props.placeholder = "" ∧
    editedEmptyNode.childrenString sampleCollaborators = {} ∧
    editedEmptyNode.getAttributedString sampleCollaborators = {} ∧
    editedEmptyNode.updateStateIfNeeded false sampleCollaborators =
      (.returned, editedEmptyNode) ∧
    (editedEmptyNode.updateStateIfNeeded false
      sampleCollaborators).2.state.reactTreeAttributedString = {} ∧
    (editedEmptyNode.updateStateIfNeeded false
      sampleCollaborators).2.state.attributedString ≠ {} := by
  decide

/-- C6, amended: for a node with no text value, no placeholder and children that
yield the empty attributed string, `getAttributedString` is empty (no padding on
the state path); `updateStateIfNeeded` returns and leaves a state whose tree
string is empty; its rendered string is empty when the call commits, and is the
prior rendered string, untouched, when the call takes the early return. -/
theorem updateStateIfNeeded_empty_widget (NDEBUG : Bool) (env : Collaborators)
    (n : AndroidTextInputShadowNode) (htext : n.props.text = "")
    (hplaceholder : n.props.placeholder = "")
    (hchildren : n.childrenString env = {})
    (hunsealed : n.isSealed = false) (hassert : n.assertionsPass NDEBUG) :
    n.getAttributedString env = {} ∧
    n.getPlaceholderAttributedString false = {} ∧
    (n.updateStateIfNeeded NDEBUG env).1 = .returned ∧
    (n.updateStateIfNeeded NDEBUG env).2.state.reactTreeAttributedString = {} ∧
    ((n.state.reactTreeAttributedString ≠ {} ∨
        n.state.layoutManager ≠ n.textLayoutManager_) →
      (n.updateStateIfNeeded NDEBUG env).2.state.attributedString = {}) ∧
    ((n.state.reactTreeAttributedString = {} ∧
        n.state.layoutManager = n.textLayoutManager_) →
      (n.updateStateIfNeeded NDEBUG env).2.state.attributedString =
        n.state.attributedString) := by
  have hplace : n.getPlaceholderAttributedString false = {} := by
    simp [getPlaceholderAttributedString, AttributedString.appendFragment, hplaceholder]
  have hstring : n.getAttributedString env = {} := by
    have hc : env.childrenAttributedString
        (TextAttributes.defaultTextAttributes.apply n.props.textAttributes)
        n.shadowView n.children = {} := hchildren
    simp [getAttributedString, htext, hc, AttributedString.isEmpty, hplace]
  refine ⟨hstring, hplace, ?_, ?_, ?_, ?_⟩
  · exact (updateStateIfNeeded_returns_tree_string NDEBUG env n hunsealed hassert).1
  · rw [(updateStateIfNeeded_returns_tree_string NDEBUG env n hunsealed hassert).2, hstring]
  · intro hchanged
    rw [updateStateIfNeeded_of_changed NDEBUG env n hunsealed hassert
      (by rw [hstring]; exact hchanged)]
    exact hstring
  · intro hsame
    rw [updateStateIfNeeded_of_same NDEBUG env n hunsealed hassert
      (by rw [hstring]; exact hsame.1) hsame.2]

/-- C6 amended, evaluated on the empty widget with its state as constructed: the
first reconciliation commits an empty string. -/
theorem updateStateIfNeeded_empty_widget_witness :
    emptyNode.props.text = "" ∧ emptyNode.props.placeholder = "" ∧
    emptyNode.childrenString sampleCollaborators = {} ∧
    emptyNode.isSealed = false ∧ emptyNode.assertionsPass false ∧
    emptyNode.getAttributedString sampleCollaborators = {} ∧
    (emptyNode.updateStateIfNeeded false
      sampleCollaborators).2.state.reactTreeAttributedString = {} :=
  ⟨rfl, rfl, by decide, rfl, Or.inr ⟨by decide, Or.inl rfl⟩,
    (updateStateIfNeeded_empty_widget false sampleCollaborators emptyNode rfl rfl
      (by decide) rfl (Or.inr ⟨by decide, Or.inl rfl⟩)).1,
    by decide⟩

/-! ## The measurer -/

/-- C7: an empty widget still measures with positive height.  With no text
value, no placeholder and an empty rendered string in the state, `measure` hands
the node's layout manager a one-fragment attributed string whose text is a
single space, with the props' paragraph attributes and the constraints, and
returns its result; so when the layout manager measures every non-empty string
with positive height, `measure` returns a size with positive height. -/
theorem measure_empty_widget (env : Collaborators) (n : AndroidTextInputShadowNode)
    (layoutConstraints : LayoutConstraints) (manager : Nat)
    (htext : n.props.text = "") (hplaceholder : n.props.placeholder = "")
    (hstate : n.state.attributedString.isEmpty = true)
    (hmanager : n.textLayoutManager_ = some manager) :
    n.measure env layoutConstraints =
      some (env.textLayoutMeasure manager
        (AttributedStringBox.value
          { fragments :=
              [{ string := " "
                 textAttributes :=
                   TextAttributes.defaultTextAttributes.apply n.props.textAttributes
                 parentShadowView := n.shadowView }] })
        n.props.paragraphAttributes layoutConstraints) ∧
    ((∀ (s : AttributedString) (p : ParagraphAttributes) (c : LayoutConstraints),
        s.isEmpty = false →
          0 < (env.textLayoutMeasure manager (AttributedStringBox.value s) p c).height) →
      ∃ size, n.measure env layoutConstraints = some size ∧ 0 < size.height) := by
  have _ := htext
  have hmeasure : n.measure env layoutConstraints =
      some (env.textLayoutMeasure manager
        (AttributedStringBox.value
          { fragments :=
              [{ string := " "
                 textAttributes :=
                   TextAttributes.defaultTextAttributes.apply n.props.textAttributes
                 parentShadowView := n.shadowView }] })
        n.props.paragraphAttributes layoutConstraints) := by
    have hfragments : n.state.attributedString.fragments = [] := by
      simpa [AttributedString.isEmpty] using hstate
    simp [measure, hfragments, getPlaceholderAttributedString,
      AttributedString.appendFragment, AttributedString.isEmpty, hplaceholder, hmanager]
  refine ⟨hmeasure, fun hpositive => ⟨_, hmeasure, ?_⟩⟩
  exact hpositive _ _ _ (by simp [AttributedString.isEmpty])

/-- C7, evaluated on the empty widget, whose sample layout manager returns height
one. -/
theorem measure_empty_widget_witness :
    emptyNode.props.text = "" ∧ emptyNode.props.placeholder = "" ∧
    emptyNode.state.attributedString.isEmpty = true ∧
    emptyNode.textLayoutManager_ = some 1 ∧
    ∃ size, emptyNode.measure sampleCollaborators {} = some size ∧ 0 < size.height :=
  ⟨rfl, rfl, rfl, rfl,
    (measure_empty_widget sampleCollaborators emptyNode {} 1 rfl rfl rfl rfl).2
      (fun _ _ _ _ => by simp [sampleCollaborators])⟩

/-! ## The builder -/

/-- C8: text takes precedence over the placeholder.  Two nodes with the same
identity, the same children, the same non-empty text value and the same text
attributes have equal attributed strings, whatever their placeholders. -/
theorem getAttributedString_ignores_placeholder (env : Collaborators)
    (n1 n2 : AndroidTextInputShadowNode) (htag : n1.tag = n2.tag)
    (hchildren : n1.children = n2.children)
    (htext : n1.props.text = n2.props.text)
    (hattributes : n1.props.textAttributes = n2.props.textAttributes)
    (hnonempty : n1.props.text ≠ "") :
    n1.getAttributedString env = n2.getAttributedString env := by
  have hnonempty2 : n2.props.text ≠ "" := htext ▸ hnonempty
  simp [getAttributedString, shadowView, hnonempty, hnonempty2, htag, hchildren, htext,
    hattributes]

/-- C8, evaluated on the sample node and on the same node with another
placeholder. -/
theorem getAttributedString_ignores_placeholder_witness :
    sampleNode.props.placeholder ≠ "another placeholder" ∧
    sampleNode.props.text ≠ "" ∧
    sampleNode.getAttributedString sampleCollaborators =
      AndroidTextInputShadowNode.getAttributedString sampleCollaborators
        { sampleNode with
          props := { sampleNode.props with placeholder := "another placeholder" } } :=
  ⟨by decide, by decide,
    getAttributedString_ignores_placeholder sampleCollaborators sampleNode
      { sampleNode with
        props := { sampleNode.props with placeholder := "another placeholder" } }
      rfl rfl rfl rfl (by decide)⟩

/-- C9: safety of early measurement.  On a node whose state holds an empty
rendered string (the state as constructed, before any commit), sealed or not,
`measure` returns a size, which is the measurement by the node's layout manager
of the placeholder string built with the minimum-length guarantee; a second
call, on any node with the same props, state, identity and layout manager,
returns the same size. -/
theorem measure_early (env : Collaborators) (n : AndroidTextInputShadowNode)
    (layoutConstraints : LayoutConstraints) (manager : Nat)
    (hstate : n.state.attributedString.isEmpty = true)
    (hmanager : n.textLayoutManager_ = some manager) :
    n.measure env layoutConstraints =
      some (env.textLayoutMeasure manager
        (AttributedStringBox.value (n.getPlaceholderAttributedString true))
        n.props.paragraphAttributes layoutConstraints) ∧
    (n.getPlaceholderAttributedString true).isEmpty = false ∧
    ∀ n2 : AndroidTextInputShadowNode, n2.props = n.props → n2.state = n.state →
      n2.tag = n.tag → n2.textLayoutManager_ = n.textLayoutManager_ →
      n2.measure env layoutConstraints = n.measure env layoutConstraints := by
  have hne : (n.getPlaceholderAttributedString true).isEmpty = false := by
    by_cases hp : n.props.placeholder = "" <;>
      simp [getPlaceholderAttributedString, AttributedString.appendFragment,
        AttributedString.isEmpty, hp]
  refine ⟨?_, hne, ?_⟩
  · simp [measure, hstate, hne, hmanager]
  · intro n2 hprops hstate2 htag htlm
    simp [measure, getPlaceholderAttributedString, shadowView, hprops, hstate2, htag, htlm]

/-- C9, evaluated on the sample node, sealed, with its state as
constructed: the placeholder is measured, not the text value. -/
theorem measure_early_witness :
    sealedNode.state.attributedString.isEmpty = true ∧
    sealedNode.textLayoutManager_ = some 1 ∧
    sealedNode.measure sampleCollaborators {} =
      some (sampleCollaborators.textLayoutMeasure 1
        (AttributedStringBox.value
          { fragments :=
              [{ string := "type here"
                 textAttributes :=
                   { foregroundColor := blackColor, backgroundColor := some 255,
                     fontSize := some 14 }
                 parentShadowView := { componentName := "AndroidTextInput", tag := 7 } }] })
        {} {}) :=
  ⟨rfl, rfl, (measure_early sampleCollaborators sealedNode {} 1 rfl rfl).1.trans (by decide)⟩

/-! ## The mutation guard -/

/-- C10: the mutation guard.  On a sealed node `updateStateIfNeeded`, `layout`,
`setTextLayoutManager` and `setContextContainer` abort on the guard with the
node, its state, layout manager and context container included, as it was; on
an unsealed node the guard lets the call through: the setters write their
argument and return, `updateStateIfNeeded` does not abort on the guard and
returns when the asserted preconditions hold, and `layout` then hands the
reconciled node to the base layout. -/
theorem mutation_guard (NDEBUG : Bool) (env : Collaborators)
    (n : AndroidTextInputShadowNode) (contextContainer : ContextContainerPtr)
    (textLayoutManager : SharedTextLayoutManager) (layoutContext : LayoutContext) :
    (n.isSealed = true →
      n.ensureUnsealed = .aborted .sealedMutation ∧
      n.updateStateIfNeeded NDEBUG env = (.aborted .sealedMutation, n) ∧
      n.layout NDEBUG env layoutContext = (.aborted .sealedMutation, n) ∧
      n.setTextLayoutManager textLayoutManager = (.aborted .sealedMutation, n) ∧
      n.setContextContainer contextContainer = (.aborted .sealedMutation, n)) ∧
    (n.isSealed = false →
      n.ensureUnsealed = .returned ∧
      (n.updateStateIfNeeded NDEBUG env).1 ≠ .aborted .sealedMutation ∧
      (n.assertionsPass NDEBUG →
        (n.updateStateIfNeeded NDEBUG env).1 = .returned ∧
        n.layout NDEBUG env layoutContext =
          env.baseLayout layoutContext (n.updateStateIfNeeded NDEBUG env).2) ∧
      n.setTextLayoutManager textLayoutManager =
        (.returned, { n with textLayoutManager_ := textLayoutManager }) ∧
      n.setContextContainer contextContainer =
        (.returned, { n with contextContainer_ := contextContainer })) := by
  constructor
  · intro hsealed
    have hupdate := updateStateIfNeeded_of_sealed NDEBUG env n hsealed
    refine ⟨by simp [ensureUnsealed, hsealed], hupdate, ?_, ?_, ?_⟩
    · simp [layout, hupdate]
    · simp [setTextLayoutManager, ensureUnsealed, hsealed]
    · simp [setContextContainer, ensureUnsealed, hsealed]
  · intro hunsealed
    refine ⟨by simp [ensureUnsealed, hunsealed], ?_, ?_, ?_, ?_⟩
    · simp only [updateStateIfNeeded, ensureUnsealed, hunsealed]
      split_ifs <;> simp_all
    · intro hassert
      have hreturned := (updateStateIfNeeded_returns_tree_string NDEBUG env n hunsealed hassert).1
      refine ⟨hreturned, ?_⟩
      unfold layout
      generalize n.updateStateIfNeeded NDEBUG env = r at hreturned
      obtain ⟨completion, n1⟩ := r
      simp only at hreturned
      subst hreturned
      rfl
    · simp [setTextLayoutManager, ensureUnsealed, hunsealed]
    · simp [setContextContainer, ensureUnsealed, hunsealed]

/-- C10, evaluated on the sealed sample node and on the unsealed one. -/
theorem mutation_guard_witness :
    sealedNode.isSealed = true ∧
    sealedNode.updateStateIfNeeded false sampleCollaborators =
      (.aborted .sealedMutation, sealedNode) ∧
    sealedNode.setTextLayoutManager (some 2) = (.aborted .sealedMutation, sealedNode) ∧
    sampleNode.isSealed = false ∧
    sampleNode.setContextContainer (some 9) =
      (.returned, { sampleNode with contextContainer_ := some 9 }) :=
  ⟨rfl,
    ((mutation_guard false sampleCollaborators sealedNode none (some 2) {}).1 rfl).2.1,
    ((mutation_guard false sampleCollaborators sealedNode none (some 2) {}).1 rfl).2.2.2.1,
    rfl,
    ((mutation_guard false sampleCollaborators sampleNode (some 9) none {}).2 rfl).2.2.2.2⟩

/-! ## The placeholder synthesizer -/

/-- C11: placeholder synthesis.  `getPlaceholderAttributedString` returns a
one-fragment string with the placeholder as text when the placeholder is
non-empty, a one-fragment string with the single space as text when the
placeholder is empty and the minimum length is asked for, and the empty
attributed string when the placeholder is empty and it is not; the fragment,
when there is one, carries the default attributes with the node's own applied,
the background colour as applied and not cleared, and the descriptor of this
node. -/
theorem getPlaceholderAttributedString_cases (n : AndroidTextInputShadowNode)
    (ensureMinimumLength : Bool) :
    (n.props.placeholder ≠ "" →
      n.getPlaceholderAttributedString ensureMinimumLength =
        { fragments :=
            [{ string := n.props.placeholder
               textAttributes :=
                 TextAttributes.defaultTextAttributes.apply n.props.textAttributes
               parentShadowView := n.shadowView }] }) ∧
    (n.props.placeholder = "" → ensureMinimumLength = true →
      n.getPlaceholderAttributedString ensureMinimumLength =
        { fragments :=
            [{ string := " "
               textAttributes :=
                 TextAttributes.defaultTextAttributes.apply n.props.textAttributes
               parentShadowView := n.shadowView }] }) ∧
    (n.props.placeholder = "" → ensureMinimumLength = false →
      n.getPlaceholderAttributedString ensureMinimumLength = { fragments := [] }) ∧
    (∀ colour : Nat, n.props.textAttributes.backgroundColor = some colour →
      (TextAttributes.defaultTextAttributes.apply
        n.props.textAttributes).backgroundColor = some colour) := by
  refine ⟨fun h => ?_, fun h hmin => ?_, fun h hmin => ?_, fun colour h => ?_⟩
  · simp [getPlaceholderAttributedString, AttributedString.appendFragment, h]
  · simp [getPlaceholderAttributedString, AttributedString.appendFragment, h, hmin]
  · simp [getPlaceholderAttributedString, AttributedString.appendFragment, h, hmin]
  · simp [TextAttributes.apply, h]

/-- C11, evaluated on the sample node, whose placeholder and own background
colour are set, and on the empty widget with and without the minimum length. -/
theorem getPlaceholderAttributedString_cases_witness :
    sampleNode.getPlaceholderAttributedString false =
      { fragments :=
          [{ string := "type here"
             textAttributes :=
               { foregroundColor := blackColor, backgroundColor := some 255,
                 fontSize := some 14 }
             parentShadowView := { componentName := "AndroidTextInput", tag := 7 } }] } ∧
    ((emptyNode.getPlaceholderAttributedString true).fragments.map fun f => f.string) =
      [" "] ∧
    emptyNode.getPlaceholderAttributedString false = { fragments := [] } :=
  ⟨((getPlaceholderAttributedString_cases sampleNode false).1 (by decide)).trans
      (by decide),
    by decide,
    (getPlaceholderAttributedString_cases emptyNode false).2.2.1 rfl rfl⟩

/-! ## The measurer, continued -/

/-- C12: measurement reads the committed state and delegates verbatim.  When the
rendered string `S` of the state is non-empty, `measure` returns what the node's
layout manager measures for the box holding `S` itself, the props' paragraph
attributes and the constraints.  The method is `const`: its embedding returns
the size only and has no node to hand back. -/
theorem measure_committed_string (env : Collaborators) (n : AndroidTextInputShadowNode)
    (layoutConstraints : LayoutConstraints) (manager : Nat)
    (hstate : n.state.attributedString.isEmpty = false)
    (hmanager : n.textLayoutManager_ = some manager) :
    n.measure env layoutConstraints =
      some (env.textLayoutMeasure manager
        (AttributedStringBox.value n.state.attributedString)
        n.props.paragraphAttributes layoutConstraints) := by
  simp [measure, hstate, hmanager]

/-- C12, evaluated on the edited empty widget: the rendered string of the state
is measured, not the tree string and not the placeholder. -/
theorem measure_committed_string_witness :
    editedEmptyNode.state.attributedString.isEmpty = false ∧
    editedEmptyNode.textLayoutManager_ = some 1 ∧
    editedEmptyNode.measure sampleCollaborators {} =
      some (sampleCollaborators.textLayoutMeasure 1
        (AttributedStringBox.value { fragments := [{ string := "typed" }] }) {} {}) :=
  ⟨rfl, rfl, measure_committed_string sampleCollaborators editedEmptyNode {} 1 rfl rfl⟩

/-! ## The builder, continued -/

/-- C13: fallback order when there is no text value.  With an empty text value
and `C` the attributed string the children yield, `getAttributedString` returns
`C` itself when `C` is non-empty and otherwise the placeholder string built
without the minimum-length guarantee. -/
theorem getAttributedString_fallback (env : Collaborators)
    (n : AndroidTextInputShadowNode) (C : AttributedString)
    (htext : n.props.text = "")
    (hC : env.childrenAttributedString
      (TextAttributes.defaultTextAttributes.apply n.props.textAttributes)
      n.shadowView n.children = C) :
    (C.isEmpty = false → n.getAttributedString env = C) ∧
    (C.isEmpty = true →
      n.getAttributedString env = n.getPlaceholderAttributedString false) := by
  subst hC
  constructor
  · intro h
    simp [getAttributedString, htext, h]
  · intro h
    simp [getAttributedString, htext, h]

/-- C13, evaluated on the sample node without its text value, with its child and
without it. -/
theorem getAttributedString_fallback_witness :
    childOnlyNode.props.text = "" ∧
    ((childOnlyNode.getAttributedString sampleCollaborators).fragments.map
      fun f => f.string) = ["child"] ∧
    placeholderOnlyNode.getAttributedString sampleCollaborators =
      placeholderOnlyNode.getPlaceholderAttributedString false ∧
    ((placeholderOnlyNode.getAttributedString sampleCollaborators).fragments.map
      fun f => f.string) = ["type here"] :=
  ⟨rfl, by decide,
    (getAttributedString_fallback sampleCollaborators placeholderOnlyNode _ rfl rfl).2
      (by decide),
    by decide⟩

/-! ## The measurer: the defensive branch -/

/-- C14: the zero-size branch of `measure` is unreachable.  For every node and
constraints, the attributed string `measure` holds after the placeholder
substitution is non-empty, and the result of `measure` is always the one of the
call to the layout manager on that string (no size when the reference is null),
never the zero size of the defensive check. -/
theorem measure_zero_branch_unreachable (env : Collaborators)
    (n : AndroidTextInputShadowNode) (layoutConstraints : LayoutConstraints) :
    (if n.state.attributedString.isEmpty then n.getPlaceholderAttributedString true
      else n.state.attributedString).isEmpty = false ∧
    (n.getPlaceholderAttributedString true).isEmpty = false ∧
    n.measure env layoutConstraints =
      n.textLayoutManager_.map fun manager =>
        env.textLayoutMeasure manager
          (AttributedStringBox.value
            (if n.state.attributedString.isEmpty then n.getPlaceholderAttributedString true
              else n.state.attributedString))
          n.props.paragraphAttributes layoutConstraints := by
  have hplace : (n.getPlaceholderAttributedString true).isEmpty = false := by
    by_cases hp : n.props.placeholder = "" <;>
      simp [getPlaceholderAttributedString, AttributedString.appendFragment,
        AttributedString.isEmpty, hp]
  have hheld : (if n.state.attributedString.isEmpty then
      n.getPlaceholderAttributedString true
      else n.state.attributedString).isEmpty = false := by
    by_cases hs : n.state.attributedString.isEmpty = true
    · simp [hs, hplace]
    · simp [hs]
  refine ⟨hheld, hplace, ?_⟩
  unfold measure
  simp only [hheld]
  cases n.textLayoutManager_ <;> simp

/-! ## Layout integration -/

theorem updateStateIfNeeded_of_failed_assertion (NDEBUG : Bool) (env : Collaborators)
    (n : AndroidTextInputShadowNode) (hunsealed : n.isSealed = false)
    (hassert : ¬ n.assertionsPass NDEBUG) :
    n.updateStateIfNeeded NDEBUG env = (.aborted .assertionFailed, n) := by
  have hdebug : NDEBUG = false := by
    cases NDEBUG with
    | false => rfl
    | true => exact absurd (Or.inl rfl) hassert
  subst hdebug
  by_cases hset : n.textLayoutManager_ = none
  · simp [updateStateIfNeeded, ensureUnsealed, hunsealed, layoutManagerIsSet, hset]
  · have hrefers : n.stateRefersToLayoutManager = false := by
      by_cases hnone : n.state.layoutManager = none
      · exact absurd (Or.inr ⟨hset, Or.inl hnone⟩) hassert
      · by_cases hsame : n.state.layoutManager = n.textLayoutManager_
        · exact absurd (Or.inr ⟨hset, Or.inr hsame⟩) hassert
        · cases hl : n.state.layoutManager with
          | none => exact absurd hl hnone
          | some a =>
            rw [hl] at hsame
            simp [stateRefersToLayoutManager, hl, hsame]
    have hsome : n.textLayoutManager_.isSome = true := by
      cases h : n.textLayoutManager_ with
      | none => exact absurd h hset
      | some a => rfl
    simp [updateStateIfNeeded, ensureUnsealed, hunsealed, layoutManagerIsSet, hsome,
      hrefers]

/-- C15: commit precedes geometry.  On an unsealed node `layout` reconciles first
and hands the reconciled node to the base layout: that node has the props,
children and layout manager of the node `layout` was called on, its state's tree
string equals `getAttributedString` and its state records the node's layout
manager.  Where assertions are compiled in and fail, `layout` aborts and the
base layout does not run. -/
theorem layout_commit_precedes_geometry (NDEBUG : Bool) (env : Collaborators)
    (n : AndroidTextInputShadowNode) (layoutContext : LayoutContext)
    (hunsealed : n.isSealed = false) :
    (n.assertionsPass NDEBUG →
      n.layout NDEBUG env layoutContext =
        env.baseLayout layoutContext (n.updateStateIfNeeded NDEBUG env).2 ∧
      (n.updateStateIfNeeded NDEBUG env).2.props = n.props ∧
      (n.updateStateIfNeeded NDEBUG env).2.children = n.children ∧
      (n.updateStateIfNeeded NDEBUG env).2.textLayoutManager_ = n.textLayoutManager_ ∧
      (n.updateStateIfNeeded NDEBUG env).2.state.reactTreeAttributedString =
        (n.updateStateIfNeeded NDEBUG env).2.getAttributedString env ∧
      (n.updateStateIfNeeded NDEBUG env).2.state.layoutManager =
        (n.updateStateIfNeeded NDEBUG env).2.textLayoutManager_) ∧
    (¬ n.assertionsPass NDEBUG →
      n.layout NDEBUG env layoutContext = (.aborted .assertionFailed, n)) := by
  constructor
  · intro hassert
    by_cases hsame : n.state.reactTreeAttributedString = n.getAttributedString env ∧
        n.state.layoutManager = n.textLayoutManager_
    · have h := updateStateIfNeeded_of_same NDEBUG env n hunsealed hassert hsame.1 hsame.2
      unfold layout
      rw [h]
      exact ⟨rfl, rfl, rfl, rfl, hsame.1, hsame.2⟩
    · have hchanged : n.state.reactTreeAttributedString ≠ n.getAttributedString env ∨
          n.state.layoutManager ≠ n.textLayoutManager_ := by
        by_cases hs : n.state.reactTreeAttributedString = n.getAttributedString env
        · exact Or.inr fun hm => hsame ⟨hs, hm⟩
        · exact Or.inl hs
      have h := updateStateIfNeeded_of_changed NDEBUG env n hunsealed hassert hchanged
      unfold layout
      rw [h]
      exact ⟨rfl, rfl, rfl, rfl, rfl, rfl⟩
  · intro hassert
    unfold layout
    rw [updateStateIfNeeded_of_failed_assertion NDEBUG env n hunsealed hassert]

/-- C15, evaluated on the sample node, which the reconciler commits before the
base layout sees it, and on the node whose state records another layout
manager, on which a build with assertions aborts before the base layout. -/
theorem layout_commit_precedes_geometry_witness :
    sampleNode.isSealed = false ∧ sampleNode.assertionsPass false ∧
    sampleNode.layout false sampleCollaborators {} =
      sampleCollaborators.baseLayout {}
        (sampleNode.updateStateIfNeeded false sampleCollaborators).2 ∧
    ((sampleNode.updateStateIfNeeded false
      sampleCollaborators).2.state.reactTreeAttributedString.fragments.map
        fun f => f.string) = ["hello", "child"] ∧
    mismatchedNode.layout false sampleCollaborators {} =
      (.aborted .assertionFailed, mismatchedNode) :=
  ⟨rfl, Or.inr ⟨by decide, Or.inl rfl⟩,
    ((layout_commit_precedes_geometry false sampleCollaborators sampleNode {} rfl).1
      (Or.inr ⟨by decide, Or.inl rfl⟩)).1,
    by decide,
    (layout_commit_precedes_geometry false sampleCollaborators mismatchedNode {} rfl).2
      (by unfold assertionsPass; decide)⟩

/-! ## When the reconciler commits -/

/-- C16: the first reconciliation always commits.  On an unsealed node with a
layout manager set whose state records none, `updateStateIfNeeded` returns with
a newly committed state, different from the prior one, even when the computed
string equals the prior tree string; and when the state records no layout
manager or the node's, the call returns and has committed a new state if and
only if the strings differ or the state recorded no layout manager. -/
theorem updateStateIfNeeded_first_commits (NDEBUG : Bool) (env : Collaborators)
    (n : AndroidTextInputShadowNode) (hunsealed : n.isSealed = false)
    (hset : n.textLayoutManager_ ≠ none) :
    (n.state.layoutManager = none →
      n.updateStateIfNeeded NDEBUG env =
        (.returned,
          { n with
            state :=
              { mostRecentEventCount := n.state.mostRecentEventCount
                reactTreeAttributedString := n.getAttributedString env
                attributedString := n.getAttributedString env
                paragraphAttributes := n.props.paragraphAttributes
                defaultTextAttributes :=
                  TextAttributes.defaultTextAttributes.apply n.props.textAttributes
                defaultParentShadowView := n.shadowView
                layoutManager := n.textLayoutManager_ } }) ∧
      (n.updateStateIfNeeded NDEBUG env).2.state ≠ n.state) ∧
    (n.state.layoutManager = none ∨ n.state.layoutManager = n.textLayoutManager_ →
      (n.updateStateIfNeeded NDEBUG env).1 = .returned ∧
      ((n.updateStateIfNeeded NDEBUG env).2.state ≠ n.state ↔
        (n.state.reactTreeAttributedString ≠ n.getAttributedString env ∨
          n.state.layoutManager = none))) := by
  have hfirst : n.state.layoutManager = none →
      n.state.layoutManager ≠ n.textLayoutManager_ := fun h1 h2 => hset (h2 ▸ h1)
  constructor
  · intro hnone
    have h := updateStateIfNeeded_of_changed NDEBUG env n hunsealed
      (Or.inr ⟨hset, Or.inl hnone⟩) (Or.inr (hfirst hnone))
    refine ⟨h, ?_⟩
    rw [h]
    intro hstate
    have hl := congrArg AndroidTextInputState.layoutManager hstate
    exact hfirst hnone hl.symm
  · intro hprecondition
    have hassert : n.assertionsPass NDEBUG := Or.inr ⟨hset, hprecondition⟩
    refine ⟨(updateStateIfNeeded_returns_tree_string NDEBUG env n hunsealed hassert).1, ?_⟩
    by_cases hsame : n.state.reactTreeAttributedString = n.getAttributedString env ∧
        n.state.layoutManager = n.textLayoutManager_
    · rw [updateStateIfNeeded_of_same NDEBUG env n hunsealed hassert hsame.1 hsame.2]
      constructor
      · intro h
        exact absurd rfl h
      · rintro (h | h)
        · exact absurd hsame.1 h
        · exact absurd hsame.2 (hfirst h)
    · have hchanged : n.state.reactTreeAttributedString ≠ n.getAttributedString env ∨
          n.state.layoutManager ≠ n.textLayoutManager_ := by
        by_cases hs : n.state.reactTreeAttributedString = n.getAttributedString env
        · exact Or.inr fun hm => hsame ⟨hs, hm⟩
        · exact Or.inl hs
      rw [updateStateIfNeeded_of_changed NDEBUG env n hunsealed hassert hchanged]
      constructor
      · intro _
        rcases hchanged with h | h
        · exact Or.inl h
        · rcases hprecondition with hp | hp
          · exact Or.inr hp
          · exact absurd hp h
      · intro _ hstate
        rcases hchanged with h | h
        · exact h (congrArg AndroidTextInputState.reactTreeAttributedString hstate).symm
        · exact h (congrArg AndroidTextInputState.layoutManager hstate).symm

/-- C16, evaluated on the empty widget with its state as constructed: the
computed string and the prior tree string are both empty and the call commits,
recording the layout manager. -/
theorem updateStateIfNeeded_first_commits_witness :
    emptyNode.isSealed = false ∧ emptyNode.textLayoutManager_ ≠ none ∧
    emptyNode.state.layoutManager = none ∧
    emptyNode.state.reactTreeAttributedString =
      emptyNode.getAttributedString sampleCollaborators ∧
    (emptyNode.updateStateIfNeeded false sampleCollaborators).2.state ≠ emptyNode.state ∧
    (emptyNode.updateStateIfNeeded false sampleCollaborators).2.state.layoutManager =
      some 1 :=
  ⟨rfl, by decide, rfl, by decide,
    ((updateStateIfNeeded_first_commits false sampleCollaborators emptyNode rfl
      (by decide)).1 rfl).2,
    by decide⟩

/-! ## What the measurer reads -/

/-- C17: measurement ignores the live text and the children.  Two nodes with the
same identity, state, placeholder, text attributes, paragraph attributes and
layout manager are measured alike under the same constraints, whatever their
text values and children; and a node whose state holds an empty rendered string
is measured from the placeholder string built with the minimum-length
guarantee, whose one fragment is the placeholder or else a single space,
whatever its text value. -/
theorem measure_ignores_text_and_children (env : Collaborators)
    (n1 n2 : AndroidTextInputShadowNode) (layoutConstraints : LayoutConstraints)
    (htag : n1.tag = n2.tag) (hstate : n1.state = n2.state)
    (hplaceholder : n1.props.placeholder = n2.props.placeholder)
    (hattributes : n1.props.textAttributes = n2.props.textAttributes)
    (hparagraph : n1.props.paragraphAttributes = n2.props.paragraphAttributes)
    (hmanager : n1.textLayoutManager_ = n2.textLayoutManager_) :
    n1.measure env layoutConstraints = n2.measure env layoutConstraints ∧
    (n1.state.attributedString.isEmpty = true →
      n1.measure env layoutConstraints =
        (n1.textLayoutManager_.map fun manager =>
          env.textLayoutMeasure manager
            (AttributedStringBox.value (n1.getPlaceholderAttributedString true))
            n1.props.paragraphAttributes layoutConstraints) ∧
      ((n1.getPlaceholderAttributedString true).fragments.map fun f => f.string) =
        [if n1.props.placeholder = "" then " " else n1.props.placeholder]) := by
  constructor
  · simp [measure, getPlaceholderAttributedString, shadowView, htag, hstate, hplaceholder,
      hattributes, hparagraph, hmanager]
  · intro hempty
    have hplace : (n1.getPlaceholderAttributedString true).isEmpty = false := by
      by_cases hp : n1.props.placeholder = "" <;>
        simp [getPlaceholderAttributedString, AttributedString.appendFragment,
          AttributedString.isEmpty, hp]
    constructor
    · unfold measure
      simp only [hempty, if_true, hplace]
      cases n1.textLayoutManager_ <;> simp
    · by_cases hp : n1.props.placeholder = "" <;>
        simp [getPlaceholderAttributedString, AttributedString.appendFragment, hp]

/-- C17, evaluated on the sample node and on the same node without text value
and child: both are measured from the placeholder. -/
theorem measure_ignores_text_and_children_witness :
    sampleNode.props.text ≠ placeholderOnlyNode.props.text ∧
    sampleNode.children ≠ placeholderOnlyNode.children ∧
    sampleNode.measure sampleCollaborators {} =
      placeholderOnlyNode.measure sampleCollaborators {} ∧
    ((sampleNode.getPlaceholderAttributedString true).fragments.map fun f => f.string) =
      ["type here"] :=
  ⟨by decide, by decide,
    (measure_ignores_text_and_children sampleCollaborators sampleNode placeholderOnlyNode
      {} rfl rfl rfl rfl rfl rfl).1,
    by decide⟩

end AndroidTextInputShadowNode

end facebook.react
